import Mathlib

/-!
# Verification of the CANIOT device-side protocol core

A shallow embedding, in Lean 4, of the device-side core of the CANIOT
library (attribute schema and resolver, attribute read/write engine,
request dispatcher, identifier codec, targeting filter, broadcast delay,
BLC system-command codec), together with theorems settling the stated
behavioural properties.

Machine integers are embedded as `Nat` with explicit reductions
(`% 2^32` for `uint32_t`, and the `>> k`/`& mask` idioms of the C
source written as `/ 2^k` and `% 2^n` for the contiguous masks the
source uses).  Fallible operations return `Except`/result records whose
`Int` field mirrors the C `int` return value (`0` on success, minus an
error code on failure).  External collaborators (driver, application
callbacks) are modelled as explicit data: the driver clock is a pair of
numbers, each optional callback is an `Option` carrying the value it
would compute.

Build-time configuration: the embedding follows the defaults of the
shipped `caniot_config.h` (attribute names off, build infos off, the
BLC system-command dispatch off) except that the driver-backed code
(`CONFIG_CANIOT_DEVICE_DRIVERS_API`) is embedded as enabled, since the
specified behaviour (system-time write, response delay) lives there.
-/

namespace Caniot

/-! ## Error codes

Modelled from the spec: the numeric values of the `CANIOT_E*` constants
live in `caniot.h`, which is not part of the provided sources; the spec
only requires a closed taxonomy of distinct codes in a dedicated base
range, which the following constants realise. -/

def CANIOT_ERROR_BASE : Nat := 0x3A00

def CANIOT_EINVAL : Nat := CANIOT_ERROR_BASE + 1

def CANIOT_EFRAME : Nat := CANIOT_ERROR_BASE + 2

def CANIOT_EKEYSECTION : Nat := CANIOT_ERROR_BASE + 3

def CANIOT_EKEYATTR : Nat := CANIOT_ERROR_BASE + 4

def CANIOT_EKEYPART : Nat := CANIOT_ERROR_BASE + 5

def CANIOT_ECLSATTR : Nat := CANIOT_ERROR_BASE + 6

def CANIOT_ENOATTR : Nat := CANIOT_ERROR_BASE + 7

def CANIOT_EREADATTR : Nat := CANIOT_ERROR_BASE + 8

def CANIOT_EWRITEATTR : Nat := CANIOT_ERROR_BASE + 9

def CANIOT_EROATTR : Nat := CANIOT_ERROR_BASE + 10

def CANIOT_EHANDLERC : Nat := CANIOT_ERROR_BASE + 11

def CANIOT_EHANDLERT : Nat := CANIOT_ERROR_BASE + 12

def CANIOT_EUNEXPECTED : Nat := CANIOT_ERROR_BASE + 13

def CANIOT_EAGAIN : Nat := CANIOT_ERROR_BASE + 14

def CANIOT_ENOTSUP : Nat := CANIOT_ERROR_BASE + 15

def CANIOT_ENIMPL : Nat := CANIOT_ERROR_BASE + 16

/-- `2^32`, the modulus of `uint32_t` arithmetic. -/
def U32 : Nat := 4294967296

/-! ## Attribute schema (`attributes.c`)

`enum section_option`: `READONLY = 1`, `VOLATILE = 2`, `PERSISTENT = 4`.
`enum attr_option`: bit 0 `READABLE`, bit 1 `WRITABLE`, bits 2..4 the
class restriction, bit 5 `ATTR_CLASS_ALL`; `HIDDEN = 0`. -/

def READONLY : Nat := 1

def VOLATILE : Nat := 2

def PERSISTENT : Nat := 4

def READABLE : Nat := 1

def WRITABLE : Nat := 2

def ATTR_CLASS_ALL : Nat := 32

/-- One schema entry: `struct attribute { offset, size, option }`. -/
structure Attribute where
  offset : Nat
  size : Nat
  option : Nat
deriving DecidableEq, Repr

/-- One schema section: `struct attr_section { option, array, array_size }`
(the array size is the list length). -/
structure AttrSection where
  option : Nat
  array : List Attribute
deriving DecidableEq, Repr

/-- `identification_attr[]`: the identification section table.
Offsets and sizes follow `struct caniot_device_id` (modelled from the
spec and the shipped `device.h`: `did` 1 byte, `version` 2 bytes at
offset 2, `name` 32 bytes, `magic_number` 4 bytes, `features` 16
bytes); entries 0x4/0x5 are the zero-filled build-info slots of the
default configuration (`CONFIG_CANIOT_BUILD_INFOS = 0`). -/
def identification_attr : List Attribute :=
  [ ⟨0, 1, READABLE + ATTR_CLASS_ALL⟩,        -- 0x0 did
    ⟨2, 2, READABLE + ATTR_CLASS_ALL⟩,        -- 0x1 version
    ⟨4, 32, READABLE + ATTR_CLASS_ALL⟩,       -- 0x2 name
    ⟨36, 4, READABLE + ATTR_CLASS_ALL⟩,       -- 0x3 magic_number
    ⟨0, 0, 0⟩,                                -- 0x4 (build_date slot, compiled out)
    ⟨0, 0, 0⟩,                                -- 0x5 (build_commit slot, compiled out)
    ⟨40, 16, READABLE + ATTR_CLASS_ALL⟩ ]     -- 0x6 features

/-- `system_attr[]`: the system section table.  Offsets and sizes follow
the modelled layout of `struct caniot_device_system` (all counters and
times `uint32_t`, the two error fields `int16_t`, `battery` one byte). -/
def system_attr : List Attribute :=
  [ ⟨0, 4, READABLE + ATTR_CLASS_ALL⟩,             -- 0x0 uptime_synced
    ⟨4, 4, READABLE + WRITABLE + ATTR_CLASS_ALL⟩,  -- 0x1 time
    ⟨8, 4, READABLE + ATTR_CLASS_ALL⟩,             -- 0x2 uptime
    ⟨12, 4, READABLE + ATTR_CLASS_ALL⟩,            -- 0x3 start_time
    ⟨16, 4, READABLE + ATTR_CLASS_ALL⟩,            -- 0x4 last_telemetry
    ⟨24, 4, READABLE + ATTR_CLASS_ALL⟩,            -- 0x5 received.total
    ⟨28, 4, READABLE + ATTR_CLASS_ALL⟩,            -- 0x6 received.read_attribute
    ⟨32, 4, READABLE + ATTR_CLASS_ALL⟩,            -- 0x7 received.write_attribute
    ⟨36, 4, READABLE + ATTR_CLASS_ALL⟩,            -- 0x8 received.command
    ⟨40, 4, READABLE + ATTR_CLASS_ALL⟩,            -- 0x9 received.request_telemetry
    ⟨44, 4, ATTR_CLASS_ALL⟩,                       -- 0xA received.ignored (HIDDEN)
    ⟨20, 4, READABLE + ATTR_CLASS_ALL⟩,            -- 0xB _last_telemetry_ms
    ⟨52, 4, READABLE + ATTR_CLASS_ALL⟩,            -- 0xC sent.total
    ⟨56, 4, READABLE + ATTR_CLASS_ALL⟩,            -- 0xD sent.telemetry
    ⟨60, 4, ATTR_CLASS_ALL⟩,                       -- 0xE _unused4 (HIDDEN)
    ⟨64, 2, READABLE + ATTR_CLASS_ALL⟩,            -- 0xF last_command_error
    ⟨66, 2, READABLE + ATTR_CLASS_ALL⟩,            -- 0x10 last_telemetry_error
    ⟨68, 2, ATTR_CLASS_ALL⟩,                       -- 0x11 _unused5 (HIDDEN)
    ⟨70, 1, READABLE + ATTR_CLASS_ALL⟩ ]           -- 0x12 battery

/-- Class restriction encodings: `ATTR_CLASSk = k << 2`. -/
def ATTR_CLASS0 : Nat := 0

/-- `ATTR_CLASS1 = 1 << 2`. -/
def ATTR_CLASS1 : Nat := 4

/-- `config_attr[]`: the configuration section table.  Offsets and sizes
follow the modelled layout of `struct caniot_device_config` (`period`
`uint32_t`, the delay fields `uint16_t` with `delay`/`delay_min`
aliased by a union, `flags` a one-byte bitfield, `timezone` `int32_t`,
`location` four chars, each GPIO pulse duration/mask `uint32_t`). -/
def config_attr : List Attribute :=
  [ ⟨0, 4, READABLE + WRITABLE + ATTR_CLASS_ALL⟩,   -- 0x0 telemetry.period
    ⟨4, 2, READABLE + WRITABLE + ATTR_CLASS_ALL⟩,   -- 0x1 telemetry.delay
    ⟨4, 2, READABLE + WRITABLE + ATTR_CLASS_ALL⟩,   -- 0x2 telemetry.delay_min
    ⟨6, 2, READABLE + WRITABLE + ATTR_CLASS_ALL⟩,   -- 0x3 telemetry.delay_max
    ⟨8, 1, READABLE + WRITABLE + ATTR_CLASS_ALL⟩,   -- 0x4 flags
    ⟨12, 4, READABLE + WRITABLE + ATTR_CLASS_ALL⟩,  -- 0x5 timezone
    ⟨16, 4, READABLE + WRITABLE + ATTR_CLASS_ALL⟩,  -- 0x6 location
    ⟨20, 4, READABLE + WRITABLE + ATTR_CLASS0⟩,     -- 0x7 cls0 pulse_durations[0]
    ⟨24, 4, READABLE + WRITABLE + ATTR_CLASS0⟩,     -- 0x8 cls0 pulse_durations[1]
    ⟨28, 4, READABLE + WRITABLE + ATTR_CLASS0⟩,     -- 0x9 cls0 pulse_durations[2]
    ⟨32, 4, READABLE + WRITABLE + ATTR_CLASS0⟩,     -- 0xA cls0 pulse_durations[3]
    ⟨36, 4, READABLE + WRITABLE + ATTR_CLASS0⟩,     -- 0xB cls0 outputs_default
    ⟨40, 4, READABLE + WRITABLE + ATTR_CLASS0⟩,     -- 0xC cls0 telemetry_on_change
    ⟨44, 4, READABLE + WRITABLE + ATTR_CLASS1⟩,     -- 0xD cls1 pulse_durations[0]
    ⟨48, 4, READABLE + WRITABLE + ATTR_CLASS1⟩,     -- 0xE cls1 pulse_durations[1]
    ⟨52, 4, READABLE + WRITABLE + ATTR_CLASS1⟩,     -- 0xF cls1 pulse_durations[2]
    ⟨56, 4, READABLE + WRITABLE + ATTR_CLASS1⟩,     -- 0x10 cls1 pulse_durations[3]
    ⟨60, 4, READABLE + WRITABLE + ATTR_CLASS1⟩,     -- 0x11 cls1 pulse_durations[4]
    ⟨64, 4, READABLE + WRITABLE + ATTR_CLASS1⟩,     -- 0x12 cls1 pulse_durations[5]
    ⟨68, 4, READABLE + WRITABLE + ATTR_CLASS1⟩,     -- 0x13 cls1 pulse_durations[6]
    ⟨72, 4, READABLE + WRITABLE + ATTR_CLASS1⟩,     -- 0x14 cls1 pulse_durations[7]
    ⟨76, 4, READABLE + WRITABLE + ATTR_CLASS1⟩,     -- 0x15 cls1 pulse_durations[8]
    ⟨80, 4, READABLE + WRITABLE + ATTR_CLASS1⟩,     -- 0x16 cls1 pulse_durations[9]
    ⟨84, 4, READABLE + WRITABLE + ATTR_CLASS1⟩,     -- 0x17 cls1 pulse_durations[10]
    ⟨88, 4, READABLE + WRITABLE + ATTR_CLASS1⟩,     -- 0x18 cls1 pulse_durations[11]
    ⟨92, 4, READABLE + WRITABLE + ATTR_CLASS1⟩,     -- 0x19 cls1 pulse_durations[12]
    ⟨96, 4, READABLE + WRITABLE + ATTR_CLASS1⟩,     -- 0x1A cls1 pulse_durations[13]
    ⟨100, 4, READABLE + WRITABLE + ATTR_CLASS1⟩,    -- 0x1B cls1 pulse_durations[14]
    ⟨104, 4, READABLE + WRITABLE + ATTR_CLASS1⟩,    -- 0x1C cls1 pulse_durations[15]
    ⟨108, 4, READABLE + WRITABLE + ATTR_CLASS1⟩,    -- 0x1D cls1 pulse_durations[16]
    ⟨112, 4, READABLE + WRITABLE + ATTR_CLASS1⟩,    -- 0x1E cls1 pulse_durations[17]
    ⟨116, 4, READABLE + WRITABLE + ATTR_CLASS1⟩,    -- 0x1F cls1 pulse_durations[18]
    ⟨120, 4, READABLE + WRITABLE + ATTR_CLASS1⟩,    -- 0x20 cls1 pulse_durations[19]
    ⟨124, 4, READABLE + WRITABLE + ATTR_CLASS1⟩,    -- 0x21 cls1 directions
    ⟨128, 4, READABLE + WRITABLE + ATTR_CLASS1⟩,    -- 0x22 cls1 outputs_default
    ⟨132, 4, READABLE + WRITABLE + ATTR_CLASS1⟩ ]   -- 0x23 cls1 telemetry_on_change

/-- `attr_sections[]`: identification (READONLY), system (VOLATILE),
configuration (PERSISTENT). -/
def attr_sections : List AttrSection :=
  [ ⟨READONLY, identification_attr⟩,
    ⟨VOLATILE, system_attr⟩,
    ⟨PERSISTENT, config_attr⟩ ]

/-! ## Attribute key decomposition

`ATTR_KEY_SECTION_GET(key) = (key >> 12) & 0xF`,
`ATTR_KEY_ATTR_GET(key) = (key >> 4) & 0xFF`,
`ATTR_KEY_PART_GET(key) = key & 0xF`. -/

def ATTR_KEY_SECTION_GET (key : Nat) : Nat := key / 4096 % 16

def ATTR_KEY_ATTR_GET (key : Nat) : Nat := key / 16 % 256

def ATTR_KEY_PART_GET (key : Nat) : Nat := key % 16

/-- `struct attr_ref`: the access descriptor produced by `attr_resolve`.
The C field `section` is named `sectionIdx` here (`section` is a Lean
keyword). -/
structure AttrRef where
  option : Nat
  section_option : Nat
  sectionIdx : Nat
  offset : Nat
  size : Nat
deriving DecidableEq, Repr

/-- `attr_option_adjust`: a READONLY section strips `WRITABLE` (clears
bit 1) from the attribute's options. -/
def attr_option_adjust (opt sec_opt : Nat) : Nat :=
  if sec_opt % 2 = 1 then opt - opt / 2 % 2 * 2 else opt

/-- `attr_get_section`: section table lookup, `NULL` when the section
index is out of range. -/
def attr_get_section (key : Nat) : Option AttrSection :=
  attr_sections[ATTR_KEY_SECTION_GET key]?

/-- `attr_get`: attribute lookup inside a section, `NULL` when the
attribute index is out of range. -/
def attr_get (key : Nat) (sec : AttrSection) : Option Attribute :=
  sec.array[ATTR_KEY_ATTR_GET key]?

/-- Schema entry by (section index, attribute index); used to state
resolver properties. -/
def schema_attr (s a : Nat) : Option Attribute :=
  attr_sections[s]?.bind fun sec => sec.array[a]?

/-- `attr_resolve`: parse the key, look up section then attribute, check
the part bound, build the access descriptor.  `.error e` stands for the
C return value `-e`. -/
def attr_resolve (key : Nat) : Except Nat AttrRef :=
  match attr_get_section key with
  | none => .error CANIOT_EKEYSECTION
  | some sec =>
    match attr_get key sec with
    | none => .error CANIOT_EKEYATTR
    | some attr =>
      if attr.size ≤ ATTR_KEY_PART_GET key * 4 then .error CANIOT_EKEYPART
      else .ok
        { sectionIdx := ATTR_KEY_SECTION_GET key
          size := min attr.size 4
          offset := ATTR_KEY_PART_GET key * 4 + attr.offset
          option := attr_option_adjust attr.option sec.option
          section_option := sec.option }

/-- **C1** — Resolver totality.  For every 16-bit attribute key: a key
whose section index names one of the three schema sections, whose
attribute index lies within that section's array and whose
`part_index * 4` is below the attribute's size resolves successfully
(an access descriptor is produced); a section index out of range yields
exactly `-CANIOT_EKEYSECTION`; a valid section with an attribute index
out of range yields exactly `-CANIOT_EKEYATTR`; a valid section and
attribute with `part_index * 4 ≥ size` yields exactly
`-CANIOT_EKEYPART`. -/
theorem attr_resolve_total_and_errors (key : Nat) :
    (3 ≤ ATTR_KEY_SECTION_GET key →
      attr_resolve key = .error CANIOT_EKEYSECTION) ∧
    (∀ sec, attr_sections[ATTR_KEY_SECTION_GET key]? = some sec →
      sec.array.length ≤ ATTR_KEY_ATTR_GET key →
      attr_resolve key = .error CANIOT_EKEYATTR) ∧
    (∀ attr, schema_attr (ATTR_KEY_SECTION_GET key) (ATTR_KEY_ATTR_GET key) = some attr →
      attr.size ≤ ATTR_KEY_PART_GET key * 4 →
      attr_resolve key = .error CANIOT_EKEYPART) ∧
    (∀ attr, schema_attr (ATTR_KEY_SECTION_GET key) (ATTR_KEY_ATTR_GET key) = some attr →
      ATTR_KEY_PART_GET key * 4 < attr.size →
      ∃ ref, attr_resolve key = .ok ref) := by
  refine ⟨?_, ?_, ?_, ?_⟩
  · intro h
    have hs : attr_sections[ATTR_KEY_SECTION_GET key]? = none :=
      List.getElem?_eq_none (by simpa [attr_sections] using h)
    simp [attr_resolve, attr_get_section, hs]
  · intro sec hsec hlen
    have ha : sec.array[ATTR_KEY_ATTR_GET key]? = none :=
      List.getElem?_eq_none hlen
    simp [attr_resolve, attr_get_section, hsec, attr_get, ha]
  · intro attr hattr hsize
    rcases Option.bind_eq_some.mp hattr with ⟨sec, hsec, ha⟩
    simp [attr_resolve, attr_get_section, hsec, attr_get, ha, hsize]
  · intro attr hattr hsize
    rcases Option.bind_eq_some.mp hattr with ⟨sec, hsec, ha⟩
    refine ⟨{ sectionIdx := ATTR_KEY_SECTION_GET key, size := min attr.size 4,
              offset := ATTR_KEY_PART_GET key * 4 + attr.offset,
              option := attr_option_adjust attr.option sec.option,
              section_option := sec.option }, ?_⟩
    simp [attr_resolve, attr_get_section, hsec, attr_get, ha, Nat.not_le.mpr hsize]

/-- Witness for C1: key `0x1010` (system / time / part 0) resolves; key
`0x3000` fails with `EKEYSECTION`; key `0x1FF0` fails with `EKEYATTR`;
key `0x0001` (identification / did / part 1) fails with `EKEYPART`. -/
theorem attr_resolve_total_and_errors_witness :
    (∃ ref, attr_resolve 0x1010 = .ok ref) ∧
    attr_resolve 0x3000 = .error CANIOT_EKEYSECTION ∧
    attr_resolve 0x1FF0 = .error CANIOT_EKEYATTR ∧
    attr_resolve 0x0001 = .error CANIOT_EKEYPART := by
  refine ⟨?_, ?_, ?_, ?_⟩
  · exact (attr_resolve_total_and_errors 0x1010).2.2.2 ⟨4, 4, 35⟩ (by decide) (by decide)
  · exact (attr_resolve_total_and_errors 0x3000).1 (by decide)
  · exact (attr_resolve_total_and_errors 0x1FF0).2.1 ⟨VOLATILE, system_attr⟩
      (by decide) (by decide)
  · exact (attr_resolve_total_and_errors 0x0001).2.2.1 ⟨0, 1, 33⟩ (by decide) (by decide)

/-! ## Frame identifier codec (`caniot.c`)

Constant values are modelled from the spec where `caniot.h` is missing:
the 11-bit layout is bits 0..1 type, bit 2 query, bits 3..5 class,
bits 6..8 sub-id, bits 9..10 endpoint; the query direction is encoded
as 1 and the response direction as 0 (spec scenario S1); a device
identifier is `(class << 3) | sub_id` (spec glossary). -/

def CANIOT_QUERY : Nat := 1

def CANIOT_RESPONSE : Nat := 0

def CANIOT_FRAME_TYPE_COMMAND : Nat := 0

def CANIOT_FRAME_TYPE_TELEMETRY : Nat := 1

def CANIOT_FRAME_TYPE_WRITE_ATTRIBUTE : Nat := 2

def CANIOT_FRAME_TYPE_READ_ATTRIBUTE : Nat := 3

def CANIOT_ENDPOINT_APP : Nat := 0

def CANIOT_ENDPOINT_BOARD_CONTROL : Nat := 3

def CANIOT_CLASS_BROADCAST : Nat := 7

def CANIOT_SUBID_BROADCAST : Nat := 7

/-- `CANIOT_DID_CLS`: class field of a device identifier. -/
def CANIOT_DID_CLS (did : Nat) : Nat := did / 8 % 8

/-- `CANIOT_DID_SID`: sub-id field of a device identifier. -/
def CANIOT_DID_SID (did : Nat) : Nat := did % 8

/-- `caniot_id_t`: the five logical fields of an 11-bit frame
identifier (each a C bitfield of the listed width). -/
structure CaniotId where
  type : Nat
  query : Nat
  cls : Nat
  sid : Nat
  endpoint : Nat
deriving DecidableEq, Repr

/-- `caniot_id_to_canid`: pack the five fields into an 11-bit pattern
(`CANIOT_ID(type, query, cls, sid, endpoint)`); the `%` reductions
mirror the bitfield widths. -/
def caniot_id_to_canid (id : CaniotId) : Nat :=
  id.type % 4 + id.query % 2 * 4 + id.cls % 8 * 8 + id.sid % 8 * 64 + id.endpoint % 4 * 512

/-- `caniot_canid_to_id`: unpack an identifier pattern into the five
fields. -/
def caniot_canid_to_id (canid : Nat) : CaniotId :=
  { type := canid % 4
    query := canid / 4 % 2
    cls := canid / 8 % 8
    sid := canid / 64 % 8
    endpoint := canid / 512 % 4 }

/-- **C3** — Identifier round-trip.  Packing the fields unpacked from
any 11-bit pattern restores the pattern, and unpacking the pattern
packed from any in-range field tuple restores the tuple. -/
theorem canid_id_roundtrip :
    (∀ x, x < 2048 → caniot_id_to_canid (caniot_canid_to_id x) = x) ∧
    (∀ t, t < 4 → ∀ q, q < 2 → ∀ c, c < 8 → ∀ s, s < 8 → ∀ e, e < 4 →
      caniot_canid_to_id (caniot_id_to_canid ⟨t, q, c, s, e⟩) = ⟨t, q, c, s, e⟩) := by
  constructor
  · intro x hx
    simp only [caniot_id_to_canid, caniot_canid_to_id]
    omega
  · intro t ht q hq c hc s hs e he
    simp only [caniot_id_to_canid, caniot_canid_to_id, CaniotId.mk.injEq]
    omega

/-- Witness for C3 at the pattern `0x5A7` and the field tuple of spec
scenario S1 (`type = 3, query = 1, cls = 1, sid = 2, ep = 0`). -/
theorem canid_id_roundtrip_witness :
    caniot_id_to_canid (caniot_canid_to_id 0x5A7) = 0x5A7 ∧
    caniot_canid_to_id (caniot_id_to_canid ⟨3, 1, 1, 2, 0⟩) = ⟨3, 1, 1, 2, 0⟩ :=
  ⟨canid_id_roundtrip.1 0x5A7 (by decide),
   canid_id_roundtrip.2 3 (by decide) 1 (by decide) 1 (by decide) 2 (by decide) 0 (by decide)⟩

/-! ## Targeting filter (`caniot.c` / `device.c`) -/

/-- A CANIOT frame: identifier fields, payload bytes, length. -/
structure CaniotFrame where
  id : CaniotId
  buf : List Nat
  len : Nat
deriving Repr

/-- `caniot_device_get_mask` (from the shipped `device.h`): match the
query, class and sub-id bits. -/
def caniot_device_get_mask : Nat := 0x1fc

/-- `caniot_device_get_filter`: accept filter of a device — query
direction with the device's class and sub-id, type and endpoint zero. -/
def caniot_device_get_filter (did : Nat) : Nat :=
  caniot_id_to_canid
    { type := 0, query := CANIOT_QUERY, cls := CANIOT_DID_CLS did,
      sid := CANIOT_DID_SID did, endpoint := 0 }

/-- `caniot_device_get_filter_broadcast`: accept filter of the
broadcast address (class 7, sub-id 7). -/
def caniot_device_get_filter_broadcast : Nat :=
  caniot_id_to_canid
    { type := 0, query := CANIOT_QUERY, cls := CANIOT_CLASS_BROADCAST,
      sid := CANIOT_SUBID_BROADCAST, endpoint := 0 }

/-- `x & 0x1FC`: keep bits 2..8 of `x` (the query, class and sub-id
bits selected by `caniot_device_get_mask`), written arithmetically. -/
def apply_mask_1fc (x : Nat) : Nat := x / 4 % 128 * 4

/-- `verify_filter_or_broadcast`: mask the standard 11-bit identifier
(`id & 0x7FF`) with `caniot_device_get_mask` and compare against the
device filter and the broadcast filter. -/
def verify_filter_or_broadcast (id filter : Nat) : Bool :=
  let std_id := id % 2048
  (apply_mask_1fc std_id == filter) ||
    (apply_mask_1fc std_id == caniot_device_get_filter_broadcast)

set_option linter.unusedVariables false in
/-- `caniot_device_targeted`: an extended-ID frame never targets the
device; the `rtr` flag is read but ignored (`(void)rtr`). -/
def caniot_device_targeted (did : Nat) (ext rtr : Bool) (id : Nat) : Bool :=
  if ext then false
  else verify_filter_or_broadcast id (caniot_device_get_filter did)

/-- `caniot_device_is_target`: field-level targeting check on a decoded
frame. -/
def caniot_device_is_target (did : Nat) (frame : CaniotFrame) : Bool :=
  (frame.id.query == CANIOT_QUERY) &&
    (((frame.id.cls == CANIOT_DID_CLS did) && (frame.id.sid == CANIOT_DID_SID did)) ||
     ((frame.id.cls == CANIOT_CLASS_BROADCAST) && (frame.id.sid == CANIOT_SUBID_BROADCAST)))

/-- Counterexample to C2 as stated: the claim says RTR frames never
target a device, but `caniot_device_targeted` ignores the RTR flag —
an RTR standard-ID frame whose identifier matches the device filter
(device did 10 = class 1 / sub-id 2, identifier 140) is reported as
targeting the device. -/
theorem rtr_frame_targets_device :
    caniot_device_targeted 10 false true 140 = true := by decide

/-- **C2 (amended)** — Targeting.  For every device identifier whose
class and sub-id fields are both below 7, every frame flag pair and
every received identifier, the mask/filter targeting test
(`caniot_device_targeted`) accepts exactly when the frame is not
extended-ID and the field-level test (`caniot_device_is_target`) on
the unpacked identifier accepts — i.e. the identifier's query bit is
the query direction and its class/sub-id fields equal the device's or
both equal 7.  The RTR flag is ignored (the result does not depend on
it), so RTR standard-ID frames with a matching identifier do target
the device. -/
theorem device_targeted_iff_fields (did : Nat) (hc : CANIOT_DID_CLS did < 7)
    (hs : CANIOT_DID_SID did < 7) (ext rtr : Bool) (y : Nat) :
    caniot_device_targeted did ext rtr y =
      (!ext && caniot_device_is_target did { id := caniot_canid_to_id y, buf := [], len := 0 }) := by
  cases ext with
  | true => simp [caniot_device_targeted]
  | false =>
    simp only [caniot_device_targeted, if_neg Bool.false_ne_true, Bool.not_false,
      Bool.true_and, verify_filter_or_broadcast, apply_mask_1fc,
      caniot_device_get_filter, caniot_device_get_filter_broadcast,
      caniot_device_is_target, caniot_canid_to_id, caniot_id_to_canid,
      CANIOT_QUERY, CANIOT_DID_CLS, CANIOT_DID_SID,
      CANIOT_CLASS_BROADCAST, CANIOT_SUBID_BROADCAST] at *
    have ha : y % 2048 / 4 % 128 = y / 4 % 128 := by omega
    have hb : y / 4 % 128 = y / 4 % 2 + y / 8 % 8 * 2 + y / 64 % 8 * 16 := by omega
    rw [ha, hb, Bool.eq_iff_iff]
    simp only [Bool.or_eq_true, Bool.and_eq_true, beq_iff_eq]
    omega

/-- Witness for C2 (amended) at device did 10 (class 1, sub-id 2): a
broadcast query identifier (class 7, sub-id 7, pattern 508) targets the
device even with the RTR flag set. -/
theorem device_targeted_iff_fields_witness :
    caniot_device_targeted 10 false true 508 =
      (!false && caniot_device_is_target 10 { id := caniot_canid_to_id 508, buf := [], len := 0 }) :=
  device_targeted_iff_fields 10 (by decide) (by decide) false true 508

/-! ## Broadcast response delay (`device.c`, `get_response_delay`) -/

/-- Default delay parameters of `caniot.h`.  Modelled from the spec:
the numeric values are not in the provided sources; only the positivity
of the default amplitude matters for the stated property. -/
def CANIOT_TELEMETRY_DELAY_MIN_DEFAULT_MS : Nat := 0

/-- Default maximum delay amplitude (`DELAY_MAX_DEFAULT`); modelled
from the spec, a positive number of milliseconds. -/
def CANIOT_TELEMETRY_DELAY_MAX_DEFAULT_MS : Nat := 100

/-- `get_response_delay`.  `random` is the broadcast flag of the
pending response; `configOk` is whether `prepare_config_read`
succeeded (0), in which case `delay_min`/`delay_max` are taken from
the configuration, otherwise the defaults stand; `rdm` is the 16-bit
word filled by `driver.entropy`. -/
def get_response_delay (random configOk : Bool) (cfgDelayMin cfgDelayMax rdm : Nat) : Nat :=
  if random then
    let delay_min := if configOk then cfgDelayMin else CANIOT_TELEMETRY_DELAY_MIN_DEFAULT_MS
    let delay_max := if configOk then cfgDelayMax else CANIOT_TELEMETRY_DELAY_MAX_DEFAULT_MS
    let amplitude := if delay_min < delay_max then delay_max - delay_min
                     else CANIOT_TELEMETRY_DELAY_MAX_DEFAULT_MS
    delay_min + rdm % amplitude
  else 0

/-- **C7** — Broadcast delay bounds.  With the configuration read and
its delay parameters in force: for a broadcast response the delay lies
in `[delay_min, delay_max)` when `delay_max > delay_min`, and in
`[delay_min, delay_min + CANIOT_TELEMETRY_DELAY_MAX_DEFAULT_MS)` when
`delay_max ≤ delay_min`; for a non-broadcast response the delay is 0. -/
theorem get_response_delay_bounds (cfgDelayMin cfgDelayMax rdm : Nat) :
    (cfgDelayMin < cfgDelayMax →
      cfgDelayMin ≤ get_response_delay true true cfgDelayMin cfgDelayMax rdm ∧
      get_response_delay true true cfgDelayMin cfgDelayMax rdm < cfgDelayMax) ∧
    (cfgDelayMax ≤ cfgDelayMin →
      cfgDelayMin ≤ get_response_delay true true cfgDelayMin cfgDelayMax rdm ∧
      get_response_delay true true cfgDelayMin cfgDelayMax rdm <
        cfgDelayMin + CANIOT_TELEMETRY_DELAY_MAX_DEFAULT_MS) ∧
    (∀ configOk, get_response_delay false configOk cfgDelayMin cfgDelayMax rdm = 0) := by
  refine ⟨?_, ?_, ?_⟩
  · intro h
    have hmod : rdm % (cfgDelayMax - cfgDelayMin) < cfgDelayMax - cfgDelayMin :=
      Nat.mod_lt _ (by omega)
    simp only [get_response_delay, if_pos h, if_true]
    omega
  · intro h
    have hmod : rdm % CANIOT_TELEMETRY_DELAY_MAX_DEFAULT_MS <
        CANIOT_TELEMETRY_DELAY_MAX_DEFAULT_MS :=
      Nat.mod_lt _ (by simp [CANIOT_TELEMETRY_DELAY_MAX_DEFAULT_MS])
    simp only [get_response_delay, if_neg (by omega : ¬ cfgDelayMin < cfgDelayMax), if_true]
    omega
  · intro configOk
    simp [get_response_delay]

/-- Witness for C7: `delay_min = 20`, `delay_max = 120`, entropy word
`1000`: the broadcast delay is within `[20, 120)`; the non-broadcast
delay is 0. -/
theorem get_response_delay_bounds_witness :
    (20 ≤ get_response_delay true true 20 120 1000 ∧
      get_response_delay true true 20 120 1000 < 120) ∧
    get_response_delay false true 20 120 1000 = 0 :=
  ⟨(get_response_delay_bounds 20 120 1000).1 (by decide),
   (get_response_delay_bounds 20 120 1000).2.2 true⟩

/-! ## BLC system-command codec (`datatype.h` / `datatype.c`) -/

/-- `struct caniot_blc_sys_command` (shipped `datatype.h`): six bits of
command state — `reset` (1 bit), `software_reset` (1 bit),
`watchdog_reset` (1 bit), `watchdog` (2-bit twostate), `config_reset`
(1 bit). -/
structure caniot_blc_sys_command where
  reset : Nat
  software_reset : Nat
  watchdog_reset : Nat
  watchdog : Nat
  config_reset : Nat
deriving DecidableEq, Repr

/-- Modelled from the spec: `caniot_blc_sys_command_from_byte` is
declared in the shipped `datatype.h` but its body (`datatype.c`) is not
among the provided sources; per the spec the byte layout is bit 0
`reset`, bit 1 `software_reset`, bit 2 `watchdog_reset`, bits 3..4
`watchdog`, bit 5 `config_reset`. -/
def caniot_blc_sys_command_from_byte (byte : Nat) : caniot_blc_sys_command :=
  { reset := byte % 2
    software_reset := byte / 2 % 2
    watchdog_reset := byte / 4 % 2
    watchdog := byte / 8 % 4
    config_reset := byte / 32 % 2 }

/-- Modelled from the spec: `caniot_caniot_blc_sys_command_to_byte`
packs the five fields back at the same positions (bitfield widths as
`%` reductions). -/
def caniot_caniot_blc_sys_command_to_byte (cmd : caniot_blc_sys_command) : Nat :=
  cmd.reset % 2 + cmd.software_reset % 2 * 2 + cmd.watchdog_reset % 2 * 4 +
    cmd.watchdog % 4 * 8 + cmd.config_reset % 2 * 32

/-- Counterexample to C8 as stated: decode-then-encode is not the
identity on all 256 bytes — the struct holds only the six low bits, so
byte `0x40` decodes and re-encodes to `0`, not `0x40`. -/
theorem blc_sys_roundtrip_fails_at_64 :
    caniot_caniot_blc_sys_command_to_byte (caniot_blc_sys_command_from_byte 0x40) ≠ 0x40 := by
  decide

/-- **C8 (amended)** — BLC byte round-trip.  Decoding a byte into the
BLC system command struct and encoding it back yields the byte reduced
to its six low bits (`b % 64`); in particular decode-then-encode is the
identity exactly on the bytes 0..63, whose two high bits are clear. -/
theorem blc_sys_roundtrip (b : Nat) (_hb : b < 256) :
    caniot_caniot_blc_sys_command_to_byte (caniot_blc_sys_command_from_byte b) = b % 64 := by
  simp only [caniot_blc_sys_command_from_byte, caniot_caniot_blc_sys_command_to_byte]
  omega

/-- Witness for C8 (amended) at byte `0x2B`: decode-then-encode is the
identity there. -/
theorem blc_sys_roundtrip_witness :
    caniot_caniot_blc_sys_command_to_byte (caniot_blc_sys_command_from_byte 0x2B) = 0x2B % 64 :=
  blc_sys_roundtrip 0x2B (by decide)

/-! ## `call_blc_sys_cmd_cb` (`device.c`) -/

/-- The source of `call_blc_sys_cmd_cb` is
`return call_blc_sys_cmd_cb(dev, cmd);` — it calls itself instead of
the handler `dev->api->blc_sys_cmd_handler(dev, cmd)`.  Embedded with
an explicit fuel argument: `none` means the call has not returned
within `fuel` stack frames.  `handlerResult` is the value the BLC
system-command handler would return; the body never consults it. -/
def call_blc_sys_cmd_cb (cmd : Nat) (handlerResult : Int) : Nat → Option Int
  | 0 => none
  | fuel + 1 => call_blc_sys_cmd_cb cmd handlerResult fuel

/-- **C9** — `call_blc_sys_cmd_cb` never terminates: whatever fuel it
is granted and whatever the installed handler would return, the
self-recursion never completes and in particular never yields the
handler's result, contradicting the specified behaviour (one indirect
call to `api.blc_sys_cmd_handler`, returning its result). -/
theorem call_blc_sys_cmd_cb_diverges (cmd : Nat) (handlerResult : Int) (fuel : Nat) :
    call_blc_sys_cmd_cb cmd handlerResult fuel = none := by
  induction fuel with
  | zero => rfl
  | succ n ih => simpa [call_blc_sys_cmd_cb] using ih

/-! ## Little-endian payload helpers (`caniot.h` inlines) -/

/-- Byte `i` of the little-endian encoding of `v`. -/
def leByte (v i : Nat) : Nat := v / 256 ^ i % 256

/-- `read_le16`: first two payload bytes, little endian. -/
def read_le16 (buf : List Nat) : Nat :=
  buf.getD 0 0 % 256 + buf.getD 1 0 % 256 * 256

/-- `read_le32`: first four payload bytes, little endian. -/
def read_le32 (buf : List Nat) : Nat :=
  buf.getD 0 0 % 256 + buf.getD 1 0 % 256 * 256 +
    buf.getD 2 0 % 256 * 65536 + buf.getD 3 0 % 256 * 16777216

/-- `write_le16`: two little-endian bytes of `v`. -/
def write_le16 (v : Nat) : List Nat := [leByte v 0, leByte v 1]

/-- `write_le32`: four little-endian bytes of `v`. -/
def write_le32 (v : Nat) : List Nat := [leByte v 0, leByte v 1, leByte v 2, leByte v 3]

/-! ## Device state

`struct caniot_device` and its collaborators.  The identification and
configuration memories are byte maps; the system structure keeps its
named fields (its byte view for the generic attribute read is
`sysMemByte` below, at the same modelled layout as `system_attr`).
The driver clock is the pair `(sec, msec)`; each application callback
is an `Option` holding what the external code would return (the
callbacks' own state is outside the model). -/

/-- `struct caniot_device_system` (modelled layout; the two error
fields are `int16_t`, embedded as `Int`). -/
structure SysState where
  uptime_synced : Nat := 0
  time : Nat := 0
  uptime : Nat := 0
  start_time : Nat := 0
  last_telemetry : Nat := 0
  _last_telemetry_ms : Nat := 0
  received_total : Nat := 0
  received_read_attribute : Nat := 0
  received_write_attribute : Nat := 0
  received_command : Nat := 0
  received_request_telemetry : Nat := 0
  received_ignored : Nat := 0
  sent_total : Nat := 0
  sent_telemetry : Nat := 0
  last_command_error : Int := 0
  last_telemetry_error : Int := 0
  battery : Nat := 0
deriving Repr, DecidableEq

/-- Bit pattern (two's complement, 16 bits) of an `int16_t` value. -/
def i16Bits (i : Int) : Nat := (i % 65536).toNat

/-- Little-endian byte view of the system structure at the modelled
layout (offsets as in `system_attr`; the `_unused` paddings read 0). -/
def sysMemByte (s : SysState) (o : Nat) : Nat :=
  if o < 4 then leByte s.uptime_synced o
  else if o < 8 then leByte s.time (o - 4)
  else if o < 12 then leByte s.uptime (o - 8)
  else if o < 16 then leByte s.start_time (o - 12)
  else if o < 20 then leByte s.last_telemetry (o - 16)
  else if o < 24 then leByte s._last_telemetry_ms (o - 20)
  else if o < 28 then leByte s.received_total (o - 24)
  else if o < 32 then leByte s.received_read_attribute (o - 28)
  else if o < 36 then leByte s.received_write_attribute (o - 32)
  else if o < 40 then leByte s.received_command (o - 36)
  else if o < 44 then leByte s.received_request_telemetry (o - 40)
  else if o < 48 then leByte s.received_ignored (o - 44)
  else if o < 52 then 0
  else if o < 56 then leByte s.sent_total (o - 52)
  else if o < 60 then leByte s.sent_telemetry (o - 56)
  else if o < 64 then 0
  else if o < 66 then leByte (i16Bits s.last_command_error) (o - 64)
  else if o < 68 then leByte (i16Bits s.last_telemetry_error) (o - 66)
  else if o < 70 then 0
  else if o = 70 then s.battery % 256
  else 0

/-- `int16_t` value of a 16-bit two's-complement pattern. -/
def i16OfBits (v : Nat) : Int :=
  if v % 65536 < 32768 then (v % 65536 : Int) else (v % 65536 : Int) - 65536

/-- Generic `memcpy` into the system structure (the dead branch of
`write_system_attr`): every `(offset, size)` pair produced by the
schema addresses a whole field, so the write is embedded field-wise;
other spans leave the structure unchanged. -/
def sys_write_val (s : SysState) (o sz v : Nat) : SysState :=
  if o = 0 ∧ sz = 4 then { s with uptime_synced := v % U32 }
  else if o = 4 ∧ sz = 4 then { s with time := v % U32 }
  else if o = 8 ∧ sz = 4 then { s with uptime := v % U32 }
  else if o = 12 ∧ sz = 4 then { s with start_time := v % U32 }
  else if o = 16 ∧ sz = 4 then { s with last_telemetry := v % U32 }
  else if o = 20 ∧ sz = 4 then { s with _last_telemetry_ms := v % U32 }
  else if o = 24 ∧ sz = 4 then { s with received_total := v % U32 }
  else if o = 28 ∧ sz = 4 then { s with received_read_attribute := v % U32 }
  else if o = 32 ∧ sz = 4 then { s with received_write_attribute := v % U32 }
  else if o = 36 ∧ sz = 4 then { s with received_command := v % U32 }
  else if o = 40 ∧ sz = 4 then { s with received_request_telemetry := v % U32 }
  else if o = 44 ∧ sz = 4 then { s with received_ignored := v % U32 }
  else if o = 52 ∧ sz = 4 then { s with sent_total := v % U32 }
  else if o = 56 ∧ sz = 4 then { s with sent_telemetry := v % U32 }
  else if o = 64 ∧ sz = 2 then { s with last_command_error := i16OfBits v }
  else if o = 66 ∧ sz = 2 then { s with last_telemetry_error := i16OfBits v }
  else if o = 70 ∧ sz = 1 then { s with battery := v % 256 }
  else s

/-- The driver clock: `get_time` yields `(sec, msec)`. -/
structure Driver where
  sec : Nat
  msec : Nat
deriving Repr, DecidableEq

/-- `struct caniot_api`: nullable application callbacks.  Handlers are
functions of the inputs the C passes them; `onRead`/`onWrite` hold the
return codes of the configuration callbacks. -/
structure CaniotApi where
  commandHandler : Option (Nat → List Nat → Nat → Int) := none
  telemetryHandler : Option (Nat → List Nat × Nat × Int) := none
  customAttrRead : Option (Nat → Int × Nat) := none
  customAttrWrite : Option (Nat → Nat → Int) := none
  onRead : Option Int := none
  onWrite : Option Int := none

/-- `struct caniot_device`. -/
structure CaniotDevice where
  idMem : Nat → Nat
  sys : SysState
  cfg : Nat → Nat
  configDirty : Bool
  driv : Driver
  api : CaniotApi

/-- `caniot_device_get_id`: the device identifier byte at offset 0 of
the identification memory. -/
def caniot_device_get_id (dev : CaniotDevice) : Nat := dev.idMem 0 % 256

/-- `prepare_config_read`: when the configuration is dirty and an
`on_read` callback exists, invoke it and clear the dirty flag on
success. -/
def prepare_config_read (dev : CaniotDevice) : Int × CaniotDevice :=
  match dev.api.onRead with
  | some r =>
    if dev.configDirty then
      if r = 0 then (r, { dev with configDirty := false }) else (r, dev)
    else (0, dev)
  | none => (0, dev)

/-- Little-endian value of `sz` bytes of memory `m` at offset `o`. -/
def readBytesLE (m : Nat → Nat) (o sz : Nat) : Nat :=
  (List.range sz).foldr (fun i acc => m (o + i) % 256 + acc * 256) 0

/-- `memcpy` of the `sz` low bytes of `v` into memory `m` at offset
`o`. -/
def writeBytesLE (m : Nat → Nat) (o sz v : Nat) : Nat → Nat :=
  fun i => if o ≤ i ∧ i < o + sz then leByte v (i - o) else m i

/-- `memcpy` of `sz` bytes (value `bytesVal`) into the low bytes of the
4-byte word `old`; the upper bytes of the destination word keep their
previous contents. -/
def copyInto (old bytesVal sz : Nat) : Nat := old / 256 ^ sz * 256 ^ sz + bytesVal

/-- `device_class_attr_exists`: an attribute is visible if its
`ATTR_CLASS_ALL` bit is set or its class field equals the device's
class. -/
def device_class_attr_exists (dev : CaniotDevice) (ref : AttrRef) : Bool :=
  if ref.option / 32 % 2 = 1 then true
  else ref.option / 4 % 8 == CANIOT_DID_CLS (caniot_device_get_id dev)

/-- `read_config_attr`: refresh the configuration if dirty, then copy
from configuration memory. -/
def read_config_attr (dev : CaniotDevice) (ref : AttrRef) (valIn : Nat) :
    Int × Nat × CaniotDevice :=
  let (ret, dev1) := prepare_config_read dev
  if ret = 0 then
    (0, copyInto valIn (readBytesLE dev1.cfg ref.offset ref.size) ref.size, dev1)
  else (ret, valIn, dev1)

/-- `attribute_read`: class gate, then dispatch by section.  The
returned `Nat` is the (possibly updated) 32-bit attribute value. -/
def attribute_read (dev : CaniotDevice) (ref : AttrRef) (valIn : Nat) :
    Int × Nat × CaniotDevice :=
  if device_class_attr_exists dev ref then
    match ref.sectionIdx with
    | 0 => (0, copyInto valIn (readBytesLE dev.idMem ref.offset ref.size) ref.size, dev)
    | 1 => (0, copyInto valIn (readBytesLE (sysMemByte dev.sys) ref.offset ref.size) ref.size, dev)
    | 2 => read_config_attr dev ref valIn
    | _ + 3 => (-(CANIOT_EREADATTR : Int), valIn, dev)
  else (-(CANIOT_ECLSATTR : Int), valIn, dev)

/-- Effects of `write_system_attr`. -/
structure SysWriteOut where
  ret : Int
  sys : SysState
  setTime : Option Nat
  genericWrite : Bool
deriving Repr, DecidableEq

/-- `write_system_attr`: the system-time special case for key `0x1010`
(read the driver clock, set it to the new value, shift the telemetry
deadlines and the start time, record the synchronisation point), and
the generic `memcpy` for every other system attribute.  `uint32_t`
arithmetic throughout. -/
def write_system_attr (driv : Driver) (sys : SysState) (ref : AttrRef) (key val : Nat) :
    SysWriteOut :=
  if key = 0x1010 then
    let prev_sec := driv.sec % U32
    let prev_msec := driv.msec % 65536
    let epoch_s := val % U32
    let diff_s := (epoch_s + U32 - prev_sec) % U32
    let sys1 : SysState := { sys with
      _last_telemetry_ms := (sys._last_telemetry_ms + diff_s * 1000 % U32 + (U32 - prev_msec)) % U32
      last_telemetry := (sys.last_telemetry + diff_s) % U32
      start_time := (sys.start_time + diff_s) % U32
      time := epoch_s }
    { ret := 0
      sys := { sys1 with uptime_synced := (epoch_s + U32 - sys1.start_time) % U32 }
      setTime := some epoch_s
      genericWrite := false }
  else
    { ret := 0, sys := sys_write_val sys ref.offset ref.size val,
      setTime := none, genericWrite := true }

/-- `config_written`: invoke the `on_write` callback if present.  The
C samples the driver clock before and after the callback and shifts
`start_time`/`last_telemetry` by the difference; the modelled clock
does not advance during the call, so both shifts are zero. -/
def config_written (dev : CaniotDevice) : Int × CaniotDevice :=
  match dev.api.onWrite with
  | none => (0, dev)
  | some r =>
    let diff_sec : Nat := 0
    let diff_msec : Nat := 0
    (r, { dev with sys := { dev.sys with
        start_time := (dev.sys.start_time + diff_sec) % U32
        last_telemetry := (dev.sys.last_telemetry + diff_msec) % U32 } })

/-- `write_config_attr`: `memcpy` the value bytes into configuration
memory, then notify the application. -/
def write_config_attr (dev : CaniotDevice) (ref : AttrRef) (val : Nat) :
    Int × CaniotDevice :=
  let dev1 := { dev with cfg := writeBytesLE dev.cfg ref.offset ref.size val }
  config_written dev1

/-- Result of `attribute_write`. -/
structure AttrWriteOut where
  ret : Int
  dev : CaniotDevice
  setTime : Option Nat

/-- `attribute_write`: require the (adjusted) `WRITABLE` role, then
dispatch by section; no class gate on this path. -/
def attribute_write (dev : CaniotDevice) (ref : AttrRef) (key val : Nat) : AttrWriteOut :=
  if ref.option / 2 % 2 = 0 then
    { ret := -(CANIOT_EROATTR : Int), dev := dev, setTime := none }
  else
    match ref.sectionIdx with
    | 1 =>
      let o := write_system_attr dev.driv dev.sys ref key val
      { ret := o.ret, dev := { dev with sys := o.sys }, setTime := o.setTime }
    | 2 =>
      let (r, dev1) := write_config_attr dev ref val
      { ret := r, dev := dev1, setTime := none }
    | _ =>
      { ret := -(CANIOT_EWRITEATTR : Int), dev := dev, setTime := none }

/-! ## Request dispatcher (`device.c`) -/

/-- `caniot_clear_frame`: a zeroed frame. -/
def caniot_clear_frame : CaniotFrame := { id := ⟨0, 0, 0, 0, 0⟩, buf := [], len := 0 }

/-- `prepare_response`: clear the frame, re-read the device's class
and sub-id from identification memory, set the response direction and
the requested type/endpoint. -/
def prepare_response (dev : CaniotDevice) (resp_type endpoint : Nat) : CaniotFrame :=
  let did := caniot_device_get_id dev
  { id := { type := resp_type, query := CANIOT_RESPONSE,
            cls := CANIOT_DID_CLS did, sid := CANIOT_DID_SID did, endpoint := endpoint }
    buf := [], len := 0 }

/-- `caniot_resp_error_for` (`caniot.c`): attribute queries report
errors as `write_attribute`, everything else as `command`. -/
def caniot_resp_error_for (query_type : Nat) : Nat :=
  if query_type = CANIOT_FRAME_TYPE_WRITE_ATTRIBUTE ∨
      query_type = CANIOT_FRAME_TYPE_READ_ATTRIBUTE then
    CANIOT_FRAME_TYPE_WRITE_ATTRIBUTE
  else CANIOT_FRAME_TYPE_COMMAND

/-- `caniot_is_error_frame` (`caniot.c`). -/
def caniot_is_error_frame (id : CaniotId) : Bool :=
  id.query == CANIOT_RESPONSE &&
    (id.type == CANIOT_FRAME_TYPE_COMMAND || id.type == CANIOT_FRAME_TYPE_WRITE_ATTRIBUTE)

/-- `resp_wrap_error`: build an error frame on the request's endpoint —
the signed 32-bit error code little-endian in bytes 0..3, and, when an
error argument (the offending key) is supplied, the argument in bytes
4..7. -/
def resp_wrap_error (dev : CaniotDevice) (req : CaniotFrame) (error_code : Int)
    (p_error_arg : Option Nat) : CaniotFrame :=
  let base := prepare_response dev (caniot_resp_error_for req.id.type) req.id.endpoint
  let errBits := (error_code % (U32 : Int)).toNat
  match p_error_arg with
  | some arg => { base with buf := write_le32 errBits ++ write_le32 (arg % U32), len := 8 }
  | none => { base with buf := write_le32 errBits, len := 4 }

/-- Result of `handle_req_attribute`: return code, device state,
response frame (filled on success only), and the parsed key (the
`*key` out-parameter, set as soon as the key is read). -/
structure HandleAttrOut where
  ret : Int
  dev : CaniotDevice
  resp : Option CaniotFrame
  keyOut : Option Nat

/-- The successful attribute response: `read_attribute` type, length
6, key then 32-bit value little-endian. -/
def attr_read_response (dev : CaniotDevice) (endpoint key val : Nat) : CaniotFrame :=
  let base := prepare_response dev CANIOT_FRAME_TYPE_READ_ATTRIBUTE endpoint
  { base with buf := write_le16 key ++ write_le32 val, len := 6 }

/-- Read-back step of `handle_req_attribute` for schema attributes:
clear the value, read, and on success build the response. -/
def attr_readback (dev : CaniotDevice) (ref : AttrRef) (endpoint key : Nat) : HandleAttrOut :=
  let (r2, v, dev2) := attribute_read dev ref 0
  if r2 = 0 then
    { ret := 0, dev := dev2, resp := some (attr_read_response dev2 endpoint key v),
      keyOut := some key }
  else { ret := r2, dev := dev2, resp := none, keyOut := some key }

/-- `handle_req_attribute`: parse the key (length ≥ 2), resolve it
(falling back to the custom attribute handlers when both are
installed), perform the write when requested (length ≥ 6), read the
value back, and build the `read_attribute` response. -/
def handle_req_attribute (dev : CaniotDevice) (req : CaniotFrame) (do_write : Bool) :
    HandleAttrOut :=
  if req.len < 2 then
    { ret := -(CANIOT_EFRAME : Int), dev := dev, resp := none, keyOut := none }
  else
    let key := read_le16 req.buf
    match attr_resolve key with
    | .ok ref =>
      if do_write then
        if req.len < 6 then
          { ret := -(CANIOT_EFRAME : Int), dev := dev, resp := none, keyOut := some key }
        else
          let v := read_le32 (req.buf.drop 2)
          let w := attribute_write dev ref key v
          if w.ret = 0 then attr_readback w.dev ref req.id.endpoint key
          else { ret := w.ret, dev := w.dev, resp := none, keyOut := some key }
      else attr_readback dev ref req.id.endpoint key
    | .error e =>
      match dev.api.customAttrRead, dev.api.customAttrWrite with
      | some fr, some fw =>
        if do_write then
          if req.len < 6 then
            { ret := -(CANIOT_EFRAME : Int), dev := dev, resp := none, keyOut := some key }
          else
            let v := read_le32 (req.buf.drop 2)
            let r1 := fw key v
            if r1 = 0 then
              let (r2, vout) := fr key
              if r2 = 0 then
                { ret := 0, dev := dev,
                  resp := some (attr_read_response dev req.id.endpoint key vout),
                  keyOut := some key }
              else { ret := r2, dev := dev, resp := none, keyOut := some key }
            else { ret := r1, dev := dev, resp := none, keyOut := some key }
        else
          let (r2, vout) := fr key
          if r2 = 0 then
            { ret := 0, dev := dev,
              resp := some (attr_read_response dev req.id.endpoint key vout),
              keyOut := some key }
          else { ret := r2, dev := dev, resp := none, keyOut := some key }
      | _, _ => { ret := -(e : Int), dev := dev, resp := none, keyOut := some key }

/-- `handle_command_req`: invoke the command handler (the BLC
system-command dispatch is compiled out under the shipped defaults,
`CONFIG_CANIOT_DEVICE_HANDLE_BLC_SYS_CMD = 0`); record the result in
`last_command_error`; `-CANIOT_EHANDLERC` when no handler is
installed. -/
def handle_command_req (dev : CaniotDevice) (req : CaniotFrame) : Int × CaniotDevice :=
  match dev.api.commandHandler with
  | some h =>
    let r := h req.id.endpoint req.buf req.len
    (r, { dev with sys := { dev.sys with last_command_error := r } })
  | none => (-(CANIOT_EHANDLERC : Int), dev)

/-- `build_telemetry_resp`: prepare a telemetry response on the
endpoint, invoke the telemetry handler, count a sent telemetry on
success, record `last_telemetry_error`. -/
def build_telemetry_resp (dev : CaniotDevice) (ep : Nat) : Int × CaniotDevice × CaniotFrame :=
  let resp0 := prepare_response dev CANIOT_FRAME_TYPE_TELEMETRY ep
  match dev.api.telemetryHandler with
  | none => (-(CANIOT_EHANDLERT : Int), dev, resp0)
  | some h =>
    let out := h ep
    let r := out.2.2
    let dev1 :=
      if r = 0 then
        { dev with sys := { dev.sys with sent_telemetry := (dev.sys.sent_telemetry + 1) % U32 } }
      else dev
    let dev2 := { dev1 with sys := { dev1.sys with last_telemetry_error := r } }
    (r, dev2, { resp0 with buf := out.1, len := out.2.1 })

/-- `caniot_device_handle_rx_frame`: reject response-direction frames
with `-CANIOT_EINVAL`, count the frame, dispatch on its type, and on
any non-zero result wrap an error frame (attribute errors other than
`EFRAME` carry the offending key). -/
def caniot_device_handle_rx_frame (dev : CaniotDevice) (req : CaniotFrame) :
    Int × CaniotDevice × CaniotFrame :=
  if req.id.query ≠ CANIOT_QUERY then
    (-(CANIOT_EINVAL : Int), dev, resp_wrap_error dev req (-(CANIOT_EINVAL : Int)) none)
  else
    let dev := { dev with sys :=
      { dev.sys with received_total := (dev.sys.received_total + 1) % U32 } }
    let step : Int × CaniotDevice × Option CaniotFrame × Option Nat :=
      match req.id.type with
      | 0 =>
        let dev := { dev with sys :=
          { dev.sys with received_command := (dev.sys.received_command + 1) % U32 } }
        let (r, dev1) := handle_command_req dev req
        if r = 0 then
          let (r2, dev2, resp) := build_telemetry_resp dev1 req.id.endpoint
          (r2, dev2, some resp, none)
        else (r, dev1, none, none)
      | 1 =>
        let dev := { dev with sys :=
          { dev.sys with received_request_telemetry :=
              (dev.sys.received_request_telemetry + 1) % U32 } }
        let (r2, dev2, resp) := build_telemetry_resp dev req.id.endpoint
        (r2, dev2, some resp, none)
      | 2 =>
        let dev := { dev with sys :=
          { dev.sys with received_write_attribute :=
              (dev.sys.received_write_attribute + 1) % U32 } }
        let o := handle_req_attribute dev req true
        if o.ret ≠ 0 ∧ o.ret ≠ -(CANIOT_EFRAME : Int) then (o.ret, o.dev, o.resp, o.keyOut)
        else (o.ret, o.dev, o.resp, none)
      | 3 =>
        let dev := { dev with sys :=
          { dev.sys with received_read_attribute :=
              (dev.sys.received_read_attribute + 1) % U32 } }
        let o := handle_req_attribute dev req false
        if o.ret ≠ 0 ∧ o.ret ≠ -(CANIOT_EFRAME : Int) then (o.ret, o.dev, o.resp, o.keyOut)
        else (o.ret, o.dev, o.resp, none)
      | _ + 4 => (0, dev, none, none)
    let (ret, dev2, respOpt, argOpt) := step
    if ret ≠ 0 then (ret, dev2, resp_wrap_error dev2 req ret argOpt)
    else (ret, dev2, respOpt.getD caniot_clear_frame)

/-! ## Settled properties of the attribute engine and dispatcher -/

/-- **C5** — Writing the system time attribute (key `0x1010`).  The
driver clock `(prev_sec, prev_msec)` is read and `driver.set_time` is
called with the new epoch; with `diff = new_sec - prev_sec` (32-bit),
`last_telemetry` and `start_time` shift by `diff`,
`_last_telemetry_ms` shifts by `diff * 1000 - prev_msec`,
`system.time` becomes the new epoch, `uptime_synced` becomes
`new_sec - start_time` (against the shifted start time), the return
value is 0 and the generic `memcpy` into the system structure is not
performed. -/
theorem write_system_attr_time (driv : Driver) (sys : SysState) (ref : AttrRef) (val : Nat)
    (hsec : driv.sec < U32) (hmsec : driv.msec < 65536) (hval : val < U32) :
    (write_system_attr driv sys ref 0x1010 val).ret = 0 ∧
    (write_system_attr driv sys ref 0x1010 val).setTime = some val ∧
    (write_system_attr driv sys ref 0x1010 val).genericWrite = false ∧
    (write_system_attr driv sys ref 0x1010 val).sys.time = val ∧
    (write_system_attr driv sys ref 0x1010 val).sys.last_telemetry =
      (sys.last_telemetry + (val + U32 - driv.sec) % U32) % U32 ∧
    (write_system_attr driv sys ref 0x1010 val).sys.start_time =
      (sys.start_time + (val + U32 - driv.sec) % U32) % U32 ∧
    (write_system_attr driv sys ref 0x1010 val).sys._last_telemetry_ms =
      (sys._last_telemetry_ms + (val + U32 - driv.sec) % U32 * 1000 + (U32 - driv.msec)) % U32 ∧
    (write_system_attr driv sys ref 0x1010 val).sys.uptime_synced =
      (val + U32 - (sys.start_time + (val + U32 - driv.sec) % U32) % U32) % U32 := by
  have h1 : val % U32 = val := Nat.mod_eq_of_lt hval
  have h2 : driv.sec % U32 = driv.sec := Nat.mod_eq_of_lt hsec
  have h3 : driv.msec % 65536 = driv.msec := Nat.mod_eq_of_lt hmsec
  have hmod : ∀ a b c : Nat, (a + b % U32 + c) % U32 = (a + b + c) % U32 := by
    intro a b c
    simp only [U32]
    omega
  refine ⟨?_, ?_, ?_, ?_, ?_, ?_, ?_, ?_⟩ <;>
    simp only [write_system_attr, h1, h2, h3, if_pos] <;>
    first
      | rfl
      | exact hmod _ _ _

/-- Witness for C5: driver clock at `(1000, 500)`, a system state with
`start_time = 100`, `last_telemetry = 900`, `_last_telemetry_ms = 123`,
new epoch `5000`. -/
theorem write_system_attr_time_witness :
    (write_system_attr ⟨1000, 500⟩
        { start_time := 100, last_telemetry := 900, _last_telemetry_ms := 123 }
        ⟨35, 2, 1, 4, 4⟩ 0x1010 5000).ret = 0 ∧
    (write_system_attr ⟨1000, 500⟩
        { start_time := 100, last_telemetry := 900, _last_telemetry_ms := 123 }
        ⟨35, 2, 1, 4, 4⟩ 0x1010 5000).setTime = some 5000 ∧
    (write_system_attr ⟨1000, 500⟩
        { start_time := 100, last_telemetry := 900, _last_telemetry_ms := 123 }
        ⟨35, 2, 1, 4, 4⟩ 0x1010 5000).genericWrite = false ∧
    (write_system_attr ⟨1000, 500⟩
        { start_time := 100, last_telemetry := 900, _last_telemetry_ms := 123 }
        ⟨35, 2, 1, 4, 4⟩ 0x1010 5000).sys.time = 5000 ∧
    (write_system_attr ⟨1000, 500⟩
        { start_time := 100, last_telemetry := 900, _last_telemetry_ms := 123 }
        ⟨35, 2, 1, 4, 4⟩ 0x1010 5000).sys.last_telemetry =
      (900 + (5000 + U32 - 1000) % U32) % U32 ∧
    (write_system_attr ⟨1000, 500⟩
        { start_time := 100, last_telemetry := 900, _last_telemetry_ms := 123 }
        ⟨35, 2, 1, 4, 4⟩ 0x1010 5000).sys.start_time =
      (100 + (5000 + U32 - 1000) % U32) % U32 ∧
    (write_system_attr ⟨1000, 500⟩
        { start_time := 100, last_telemetry := 900, _last_telemetry_ms := 123 }
        ⟨35, 2, 1, 4, 4⟩ 0x1010 5000).sys._last_telemetry_ms =
      (123 + (5000 + U32 - 1000) % U32 * 1000 + (U32 - 500)) % U32 ∧
    (write_system_attr ⟨1000, 500⟩
        { start_time := 100, last_telemetry := 900, _last_telemetry_ms := 123 }
        ⟨35, 2, 1, 4, 4⟩ 0x1010 5000).sys.uptime_synced =
      (5000 + U32 - (100 + (5000 + U32 - 1000) % U32) % U32) % U32 :=
  write_system_attr_time ⟨1000, 500⟩
    { start_time := 100, last_telemetry := 900, _last_telemetry_ms := 123 }
    ⟨35, 2, 1, 4, 4⟩ 5000 (by decide) (by decide) (by decide)

/-- A sample device used to evaluate the dispatcher at concrete
inputs: identifier 10 (class 1, sub-id 2), zeroed state, clean
configuration, no callbacks installed. -/
def sampleDevice : CaniotDevice :=
  { idMem := fun i => if i = 0 then 10 else 0
    sys := {}
    cfg := fun _ => 0
    configDirty := false
    driv := { sec := 0, msec := 0 }
    api := {} }

/-- **C6** — The claim says a response-direction frame is rejected
with `-CANIOT_EINVAL` and no response/error frame is produced; the
code does return `-CANIOT_EINVAL`, but its common exit path still
wraps an error frame into the response buffer (which
`caniot_device_process` then transmits whenever
`config.error_response` is enabled), contradicting the code's own
`/* no response in this case */` comment.  Evaluated at a concrete
response-direction frame: the result is `-CANIOT_EINVAL` and the
response output is a well-formed 4-byte error frame. -/
theorem handle_rx_frame_response_dir_emits_error_frame :
    (caniot_device_handle_rx_frame sampleDevice
        { id := ⟨0, CANIOT_RESPONSE, 1, 2, 0⟩, buf := [], len := 0 }).1 =
      -(CANIOT_EINVAL : Int) ∧
    caniot_is_error_frame
      (caniot_device_handle_rx_frame sampleDevice
        { id := ⟨0, CANIOT_RESPONSE, 1, 2, 0⟩, buf := [], len := 0 }).2.2.id = true ∧
    (caniot_device_handle_rx_frame sampleDevice
        { id := ⟨0, CANIOT_RESPONSE, 1, 2, 0⟩, buf := [], len := 0 }).2.2.len = 4 ∧
    (caniot_device_handle_rx_frame sampleDevice
        { id := ⟨0, CANIOT_RESPONSE, 1, 2, 0⟩, buf := [], len := 0 }).2.2.buf =
      write_le32 ((-(CANIOT_EINVAL : Int)) % (U32 : Int)).toNat := by
  refine ⟨rfl, rfl, rfl, rfl⟩

/-! ### Helper lemmas about the resolver and the schema tables -/

/-- Eliminator for a successful resolution: the looked-up section and
attribute exist, the part bound holds and the descriptor fields are as
built by `attr_resolve`. -/
theorem attr_resolve_ok_elim {key : Nat} {ref : AttrRef} (h : attr_resolve key = .ok ref) :
    ∃ sec attr, attr_sections[ATTR_KEY_SECTION_GET key]? = some sec ∧
      sec.array[ATTR_KEY_ATTR_GET key]? = some attr ∧
      ATTR_KEY_PART_GET key * 4 < attr.size ∧
      ref.sectionIdx = ATTR_KEY_SECTION_GET key ∧
      ref.size = min attr.size 4 ∧
      ref.offset = ATTR_KEY_PART_GET key * 4 + attr.offset ∧
      ref.option = attr_option_adjust attr.option sec.option ∧
      ref.section_option = sec.option := by
  unfold attr_resolve attr_get_section attr_get at h
  split at h
  · exact absurd h (by simp)
  · rename_i sec hsec
    split at h
    · exact absurd h (by simp)
    · rename_i attr hattr
      split at h
      · exact absurd h (by simp)
      · rename_i hp
        simp only [Except.ok.injEq] at h
        subst h
        exact ⟨sec, attr, hsec, hattr, Nat.not_le.mp hp, rfl, rfl, rfl, rfl, rfl⟩

/-- A READONLY section strips the `WRITABLE` bit. -/
theorem adjust_readonly_not_writable (opt : Nat) :
    attr_option_adjust opt READONLY / 2 % 2 = 0 := by
  simp only [attr_option_adjust, READONLY]
  norm_num
  omega

/-- A non-READONLY section leaves the options unchanged. -/
theorem adjust_even_id (opt sec_opt : Nat) (h : sec_opt % 2 = 0) :
    attr_option_adjust opt sec_opt = opt := by
  simp [attr_option_adjust, h]

/-- Every system-section attribute carries `ATTR_CLASS_ALL`. -/
theorem system_attr_class_all : ∀ attr ∈ system_attr, attr.option / 32 % 2 = 1 := by
  decide

/-- A resolved attribute that is writable and class-restricted lives in
the configuration section: identification attributes lose `WRITABLE`
to the READONLY section role, and every system attribute carries
`ATTR_CLASS_ALL`. -/
theorem writable_restricted_is_config {key : Nat} {ref : AttrRef}
    (hres : attr_resolve key = .ok ref) (hall : ref.option / 32 % 2 = 0)
    (hwr : ref.option / 2 % 2 = 1) : ref.sectionIdx = 2 := by
  obtain ⟨sec, attr, hsec, hattr, _, hsi, _, _, hopt, _⟩ := attr_resolve_ok_elim hres
  have hlt : ATTR_KEY_SECTION_GET key < 3 := by
    rcases List.getElem?_eq_some.mp hsec with ⟨hl, _⟩
    simpa [attr_sections] using hl
  rcases (by omega : ATTR_KEY_SECTION_GET key = 0 ∨ ATTR_KEY_SECTION_GET key = 1 ∨
      ATTR_KEY_SECTION_GET key = 2) with h0 | h1 | h2
  · rw [h0] at hsec
    simp only [attr_sections, List.getElem?_cons_zero, Option.some.injEq] at hsec
    subst hsec
    have hopt2 : ref.option = attr_option_adjust attr.option READONLY := hopt
    rw [hopt2] at hwr
    have := adjust_readonly_not_writable attr.option
    omega
  · rw [h1] at hsec
    simp only [attr_sections, List.getElem?_cons_succ, List.getElem?_cons_zero,
      Option.some.injEq] at hsec
    subst hsec
    have hopt2 : ref.option = attr_option_adjust attr.option VOLATILE := hopt
    rw [adjust_even_id attr.option VOLATILE (by decide)] at hopt2
    have hattr2 : system_attr[ATTR_KEY_ATTR_GET key]? = some attr := hattr
    have hmem := List.getElem?_mem hattr2
    have := system_attr_class_all attr hmem
    rw [hopt2] at hall
    omega
  · rw [hsi, h2]

/-- Decoding the just-encoded 16-bit key. -/
theorem read_le16_write_le16 (k : Nat) (rest : List Nat) :
    read_le16 (write_le16 k ++ rest) = k % 65536 := by
  simp [read_le16, write_le16, leByte]
  omega

/-- Decoding the just-encoded 32-bit value. -/
theorem read_le32_write_le32 (v : Nat) :
    read_le32 (write_le32 v) = v % U32 := by
  simp [read_le32, write_le32, leByte, U32]
  omega

/-- Unfolding of `handle_req_attribute` for a write request (length 6,
key then value little-endian) whose key resolves to a schema
attribute. -/
theorem handle_req_attribute_write_ok (dev : CaniotDevice) (key : Nat) (ref : AttrRef)
    (v ep ty q cls sid : Nat) (hkey : key < 65536) (hres : attr_resolve key = .ok ref) :
    handle_req_attribute dev
      { id := ⟨ty, q, cls, sid, ep⟩, buf := write_le16 key ++ write_le32 v, len := 6 } true =
    (if (attribute_write dev ref key (v % U32)).ret = 0 then
      attr_readback (attribute_write dev ref key (v % U32)).dev ref ep key
     else { ret := (attribute_write dev ref key (v % U32)).ret,
            dev := (attribute_write dev ref key (v % U32)).dev, resp := none,
            keyOut := some key }) := by
  have hp16 : read_le16 (write_le16 key ++ write_le32 v) = key := by
    rw [read_le16_write_le16]
    exact Nat.mod_eq_of_lt hkey
  have hdrop : (write_le16 key ++ write_le32 v).drop 2 = write_le32 v := rfl
  simp only [handle_req_attribute, hp16, hres, hdrop, read_le32_write_le32]
  norm_num

/-- Unfolding of `handle_req_attribute` for a read request (length 2,
key little-endian) whose key resolves to a schema attribute. -/
theorem handle_req_attribute_read_ok (dev : CaniotDevice) (key : Nat) (ref : AttrRef)
    (ep ty q cls sid : Nat) (hkey : key < 65536) (hres : attr_resolve key = .ok ref) :
    handle_req_attribute dev
      { id := ⟨ty, q, cls, sid, ep⟩, buf := write_le16 key, len := 2 } false =
      attr_readback dev ref ep key := by
  have hp16 : read_le16 (write_le16 key) = key := by
    have := read_le16_write_le16 key []
    simpa [Nat.mod_eq_of_lt hkey] using this
  simp only [handle_req_attribute, hp16, hres]
  norm_num

/-- **C4** — Class gating.  For every schema attribute whose role
flags restrict it to a specific class (`ATTR_CLASS_ALL` clear) and
that is writable: on a device of any other class, the attribute read
operation and the attribute write operation (the request-level
read/write paths of the dispatcher) both fail with
`-CANIOT_ECLSATTR`; on a device of the matching class the class gate
passes. -/
theorem class_gated_attribute_ops (dev : CaniotDevice) (key : Nat) (ref : AttrRef)
    (v ep : Nat)
    (hres : attr_resolve key = .ok ref)
    (hkey : key < 65536)
    (hall : ref.option / 32 % 2 = 0)
    (hwr : ref.option / 2 % 2 = 1)
    (hnoOnWrite : dev.api.onWrite = none) :
    (CANIOT_DID_CLS (caniot_device_get_id dev) ≠ ref.option / 4 % 8 →
      (attribute_read dev ref 0).1 = -(CANIOT_ECLSATTR : Int) ∧
      (handle_req_attribute dev
          { id := ⟨CANIOT_FRAME_TYPE_READ_ATTRIBUTE, CANIOT_QUERY, 0, 0, ep⟩,
            buf := write_le16 key, len := 2 } false).ret = -(CANIOT_ECLSATTR : Int) ∧
      (handle_req_attribute dev
          { id := ⟨CANIOT_FRAME_TYPE_WRITE_ATTRIBUTE, CANIOT_QUERY, 0, 0, ep⟩,
            buf := write_le16 key ++ write_le32 v, len := 6 } true).ret =
        -(CANIOT_ECLSATTR : Int)) ∧
    (CANIOT_DID_CLS (caniot_device_get_id dev) = ref.option / 4 % 8 →
      device_class_attr_exists dev ref = true) := by
  have hs2 := writable_restricted_is_config hres hall hwr
  constructor
  · intro hne
    have hgate : ∀ d : CaniotDevice, d.idMem = dev.idMem →
        device_class_attr_exists d ref = false := by
      intro d hd
      rw [device_class_attr_exists, if_neg (by omega)]
      rw [caniot_device_get_id, hd]
      exact beq_eq_false_iff_ne.mpr (Ne.symm hne)
    have hread : ∀ d : CaniotDevice, d.idMem = dev.idMem →
        attribute_read d ref 0 = (-(CANIOT_ECLSATTR : Int), 0, d) := by
      intro d hd
      simp only [attribute_read, hgate d hd]
      simp
    have hrb : ∀ d : CaniotDevice, d.idMem = dev.idMem →
        (attr_readback d ref ep key).ret = -(CANIOT_ECLSATTR : Int) := by
      intro d hd
      simp only [attr_readback, hread d hd]
      norm_num [CANIOT_ECLSATTR, CANIOT_ERROR_BASE]
    refine ⟨by rw [hread dev rfl], ?_, ?_⟩
    · rw [handle_req_attribute_read_ok dev key ref ep _ _ _ _ hkey hres]
      exact hrb dev rfl
    · rw [handle_req_attribute_write_ok dev key ref v ep _ _ _ _ hkey hres]
      have hwrite : attribute_write dev ref key (v % U32) =
          { ret := 0,
            dev := { dev with cfg := writeBytesLE dev.cfg ref.offset ref.size (v % U32) },
            setTime := none } := by
        simp only [attribute_write, if_neg (by omega : ¬ ref.option / 2 % 2 = 0), hs2]
        simp [write_config_attr, config_written, hnoOnWrite]
      rw [hwrite]
      simp only [if_pos rfl]
      exact hrb _ rfl
  · intro heq
    rw [device_class_attr_exists]
    by_cases hc : ref.option / 32 % 2 = 1
    · rw [if_pos hc]
    · rw [if_neg hc]
      simp [← heq]

/-- Witness for C4: device of class 1 (`sampleDevice`), key `0x2070`
(configuration attribute `cls0_gpio.pulse_duration.oc1`, restricted to
class 0, readable and writable): the read and write operations fail
with `-CANIOT_ECLSATTR`. -/
theorem class_gated_attribute_ops_witness :
    (attribute_read sampleDevice ⟨3, 4, 2, 20, 4⟩ 0).1 = -(CANIOT_ECLSATTR : Int) ∧
    (handle_req_attribute sampleDevice
        { id := ⟨CANIOT_FRAME_TYPE_READ_ATTRIBUTE, CANIOT_QUERY, 0, 0, 0⟩,
          buf := write_le16 0x2070, len := 2 } false).ret = -(CANIOT_ECLSATTR : Int) ∧
    (handle_req_attribute sampleDevice
        { id := ⟨CANIOT_FRAME_TYPE_WRITE_ATTRIBUTE, CANIOT_QUERY, 0, 0, 0⟩,
          buf := write_le16 0x2070 ++ write_le32 0x1234, len := 6 } true).ret =
      -(CANIOT_ECLSATTR : Int) :=
  (class_gated_attribute_ops sampleDevice 0x2070 ⟨3, 4, 2, 20, 4⟩ 0x1234 0
    rfl (by decide) (by decide) (by decide) rfl).1 (by decide)

/-- **C10** — Dirty failed write.  A write-attribute request for a
writable schema attribute restricted to a class other than the
device's fails with `-CANIOT_ECLSATTR` — raised only by the read-back
step (the write step itself returns 0, performing no class-gating
check) — yet the targeted configuration bytes have already been
overwritten with the request's value when the error is reported: the
device state is not left unchanged on this error. -/
theorem write_class_mismatch_overwrites_config (dev : CaniotDevice) (key : Nat) (ref : AttrRef)
    (v ep : Nat)
    (hres : attr_resolve key = .ok ref)
    (hkey : key < 65536) (hv : v < U32)
    (hall : ref.option / 32 % 2 = 0)
    (hwr : ref.option / 2 % 2 = 1)
    (hnoOnWrite : dev.api.onWrite = none)
    (hne : CANIOT_DID_CLS (caniot_device_get_id dev) ≠ ref.option / 4 % 8) :
    (handle_req_attribute dev
        { id := ⟨CANIOT_FRAME_TYPE_WRITE_ATTRIBUTE, CANIOT_QUERY, 0, 0, ep⟩,
          buf := write_le16 key ++ write_le32 v, len := 6 } true).ret =
      -(CANIOT_ECLSATTR : Int) ∧
    (handle_req_attribute dev
        { id := ⟨CANIOT_FRAME_TYPE_WRITE_ATTRIBUTE, CANIOT_QUERY, 0, 0, ep⟩,
          buf := write_le16 key ++ write_le32 v, len := 6 } true).resp = none ∧
    (attribute_write dev ref key v).ret = 0 ∧
    ref.sectionIdx = 2 ∧
    (∀ i, i < ref.size →
      (handle_req_attribute dev
          { id := ⟨CANIOT_FRAME_TYPE_WRITE_ATTRIBUTE, CANIOT_QUERY, 0, 0, ep⟩,
            buf := write_le16 key ++ write_le32 v, len := 6 } true).dev.cfg
        (ref.offset + i) = leByte v i) := by
  have hs2 := writable_restricted_is_config hres hall hwr
  have hv2 : v % U32 = v := Nat.mod_eq_of_lt hv
  have hwrite : attribute_write dev ref key v =
      { ret := 0,
        dev := { dev with cfg := writeBytesLE dev.cfg ref.offset ref.size v },
        setTime := none } := by
    simp only [attribute_write, if_neg (by omega : ¬ ref.option / 2 % 2 = 0), hs2]
    simp [write_config_attr, config_written, hnoOnWrite]
  have hgate : ∀ d : CaniotDevice, d.idMem = dev.idMem →
      device_class_attr_exists d ref = false := by
    intro d hd
    rw [device_class_attr_exists, if_neg (by omega)]
    rw [caniot_device_get_id, hd]
    exact beq_eq_false_iff_ne.mpr (Ne.symm hne)
  have hread : ∀ d : CaniotDevice, d.idMem = dev.idMem →
      attribute_read d ref 0 = (-(CANIOT_ECLSATTR : Int), 0, d) := by
    intro d hd
    simp only [attribute_read, hgate d hd]
    simp
  have hrbfull : ∀ d : CaniotDevice, d.idMem = dev.idMem →
      attr_readback d ref ep key =
        { ret := -(CANIOT_ECLSATTR : Int), dev := d, resp := none, keyOut := some key } := by
    intro d hd
    simp only [attr_readback, hread d hd]
    norm_num [CANIOT_ECLSATTR, CANIOT_ERROR_BASE]
  have hmain : handle_req_attribute dev
      { id := ⟨CANIOT_FRAME_TYPE_WRITE_ATTRIBUTE, CANIOT_QUERY, 0, 0, ep⟩,
        buf := write_le16 key ++ write_le32 v, len := 6 } true =
      { ret := -(CANIOT_ECLSATTR : Int),
        dev := { dev with cfg := writeBytesLE dev.cfg ref.offset ref.size v },
        resp := none, keyOut := some key } := by
    rw [handle_req_attribute_write_ok dev key ref v ep _ _ _ _ hkey hres, hv2, hwrite]
    simp only [if_pos rfl]
    exact hrbfull _ rfl
  refine ⟨by rw [hmain], by rw [hmain], by rw [hwrite], hs2, ?_⟩
  intro i hi
  rw [hmain]
  show writeBytesLE dev.cfg ref.offset ref.size v (ref.offset + i) = leByte v i
  rw [writeBytesLE, if_pos (by omega)]
  congr 1
  omega

/-- Witness for C10: `sampleDevice` (class 1), key `0x2070` (class-0
configuration attribute at offset 20, size 4), value `0xAABBCCDD`: the
request fails with `-CANIOT_ECLSATTR` but the four configuration bytes
at offsets 20..23 now hold the request's value. -/
theorem write_class_mismatch_overwrites_config_witness :
    (handle_req_attribute sampleDevice
        { id := ⟨CANIOT_FRAME_TYPE_WRITE_ATTRIBUTE, CANIOT_QUERY, 0, 0, 0⟩,
          buf := write_le16 0x2070 ++ write_le32 0xAABBCCDD, len := 6 } true).ret =
      -(CANIOT_ECLSATTR : Int) ∧
    (handle_req_attribute sampleDevice
        { id := ⟨CANIOT_FRAME_TYPE_WRITE_ATTRIBUTE, CANIOT_QUERY, 0, 0, 0⟩,
          buf := write_le16 0x2070 ++ write_le32 0xAABBCCDD, len := 6 } true).resp = none ∧
    (attribute_write sampleDevice ⟨3, 4, 2, 20, 4⟩ 0x2070 0xAABBCCDD).ret = 0 ∧
    (⟨3, 4, 2, 20, 4⟩ : AttrRef).sectionIdx = 2 ∧
    (∀ i, i < (⟨3, 4, 2, 20, 4⟩ : AttrRef).size →
      (handle_req_attribute sampleDevice
          { id := ⟨CANIOT_FRAME_TYPE_WRITE_ATTRIBUTE, CANIOT_QUERY, 0, 0, 0⟩,
            buf := write_le16 0x2070 ++ write_le32 0xAABBCCDD, len := 6 } true).dev.cfg
        ((⟨3, 4, 2, 20, 4⟩ : AttrRef).offset + i) = leByte 0xAABBCCDD i) :=
  write_class_mismatch_overwrites_config sampleDevice 0x2070 ⟨3, 4, 2, 20, 4⟩ 0xAABBCCDD 0
    rfl (by decide) (by decide) (by decide) (by decide) rfl (by decide)

end Caniot
